import Mathlib

/-
  Verification of the statement-parsing and normalization pipeline of the
  ai-finance-advisor repository (src/utils/file_processor.py and
  src/services/transaction_parser.py), as a shallow embedding in Lean 4.

  Machine floats of the source are modelled as exact rationals; pandas cells
  are modelled by the Value type (missing / numeric / string); record field
  values at the validator and duplicate-detector level are modelled by the
  PyVal type, which distinguishes Python date and datetime objects.  The
  generic pandas fallback date parser (pd.to_datetime), an external library
  call, is modelled as an explicit function parameter fb.
-/

namespace AFA

/-! ## Calendar dates (datetime.date) -/

/-- A Python datetime.date value: a plain calendar date. -/
structure PDate where
  year : Nat
  month : Nat
  day : Nat
deriving DecidableEq, Repr

/-- Gregorian leap-year rule, as used by datetime. -/
def isLeap (y : Nat) : Bool :=
  y % 4 == 0 && (y % 100 != 0 || y % 400 == 0)

/-- Number of days in a month of a given year. -/
def daysInMonth (y m : Nat) : Nat :=
  if m = 2 then (if isLeap y then 29 else 28)
  else if m = 4 || m = 6 || m = 9 || m = 11 then 30
  else 31

/-- Validity of a date, mirroring the checks of the datetime constructor
    (MINYEAR = 1, MAXYEAR = 9999). -/
def PDate.valid (d : PDate) : Bool :=
  1 ≤ d.year && d.year ≤ 9999 &&
  1 ≤ d.month && d.month ≤ 12 &&
  1 ≤ d.day && d.day ≤ daysInMonth d.year d.month

/-- Day number of a date (days since 1970-01-01, civil-from-days algorithm);
    date subtraction in Python yields the difference of these numbers. -/
def PDate.toDays (dt : PDate) : Int :=
  let y : Int := if dt.month ≤ 2 then (dt.year : Int) - 1 else (dt.year : Int)
  let era : Int := y / 400
  let yoe : Int := y - era * 400
  let mp : Int := ((dt.month : Int) + 9) % 12
  let doy : Int := (153 * mp + 2) / 5 + (dt.day : Int) - 1
  let doe : Int := yoe * 365 + yoe / 4 - yoe / 100 + doy
  era * 146097 + doe - 719468

/-! ## Exact rationals standing in for Python floats

  The library rational type of Mathlib has irreducible arithmetic, which the
  kernel cannot evaluate on concrete inputs, so the pipeline is embedded over
  a small normalized fraction type with computable operations.  Values are
  kept normalized (coprime numerator and positive denominator), so structural
  equality coincides with numeric equality. -/

/-- A rational number: numerator and positive denominator, kept normalized
    by the smart constructor mkPyQ. -/
structure PyQ where
  num : Int
  den : Nat
deriving DecidableEq, Repr

/-- Normalizing constructor: divides out the gcd and canonicalizes zero.
    Every denominator passed to it in this development is positive. -/
def mkPyQ (n : Int) (d : Nat) : PyQ :=
  let nn := n.natAbs
  let g := Nat.gcd nn d
  if nn = 0 then ⟨0, 1⟩
  else ⟨if n < 0 then -((nn / g : Nat) : Int) else ((nn / g : Nat) : Int), d / g⟩

/-- Subtraction. -/
def PyQ.sub (a b : PyQ) : PyQ :=
  mkPyQ (a.num * (b.den : Int) - b.num * (a.den : Int)) (a.den * b.den)

/-- Absolute value. -/
def PyQ.absQ (a : PyQ) : PyQ := ⟨(a.num.natAbs : Int), a.den⟩

/-- Strict order, by cross multiplication (denominators are positive). -/
def PyQ.blt (a b : PyQ) : Bool :=
  decide (a.num * (b.den : Int) < b.num * (a.den : Int))

/-- Zero test (Python falsiness of the float 0.0). -/
def PyQ.isZero (a : PyQ) : Bool := a.num == 0

/-- Embedding of integers. -/
def PyQ.ofInt (n : Int) : PyQ := ⟨n, 1⟩

/-! ## Cell values of a pandas DataFrame -/

/-- A cell of a DataFrame as read from a CSV: missing (NaN), numeric, or
    string.  Python floats are modelled as exact rationals. -/
inductive Value where
  | vNull : Value
  | vNum (q : PyQ) : Value
  | vStr (s : String) : Value
deriving DecidableEq, Repr

export Value (vNull vNum vStr)

/-! ## Python float() on strings -/

/-- Whitespace for str.strip and the regex whitespace class. -/
def isPySpace (c : Char) : Bool :=
  c = ' ' || c = '\t' || c = '\n' || c = '\r' || c = '\x0b' || c = '\x0c'

/-- str.strip() on a character list (whitespace from both ends). -/
def trimChars (cs : List Char) : List Char :=
  ((cs.dropWhile isPySpace).reverse.dropWhile isPySpace).reverse

/-- Numeric value of a list of decimal digit characters. -/
def digitsToNat (cs : List Char) : Nat :=
  cs.foldl (fun a c => a * 10 + (c.toNat - 48)) 0

/-- Parse the literal accepted by Python float() on a string (after the
    whitespace strip float() itself performs): optional sign, then either
    digits with an optional fractional part or a bare fractional part,
    then an optional exponent.  Non-finite literals (inf, nan) and digit
    underscores are outside the rational model and yield none; neither is
    exercised by the pipeline inputs considered here. -/
def pyFloat (s : String) : Option PyQ :=
  let cs := trimChars s.toList
  let (neg, cs) :=
    match cs with
    | '-' :: rest => (true, rest)
    | '+' :: rest => (false, rest)
    | rest => (false, rest)
  let intPart := cs.takeWhile Char.isDigit
  let cs1 := cs.dropWhile Char.isDigit
  let (fracPart, cs2) :=
    match cs1 with
    | '.' :: rest => (rest.takeWhile Char.isDigit, rest.dropWhile Char.isDigit)
    | rest => ([], rest)
  if intPart.isEmpty && fracPart.isEmpty then none
  else
    let base : Nat := digitsToNat intPart * 10 ^ fracPart.length + digitsToNat fracPart
    let m : Int := if neg then -(base : Int) else (base : Int)
    let d : Nat := 10 ^ fracPart.length
    match cs2 with
    | [] => some (mkPyQ m d)
    | 'e' :: rest => pyFloatExp m d rest
    | 'E' :: rest => pyFloatExp m d rest
    | _ => none
where
  /-- Exponent suffix of a float literal. -/
  pyFloatExp (m : Int) (d : Nat) (rest : List Char) : Option PyQ :=
    let (esgn, rest) :=
      match rest with
      | '-' :: r => (true, r)
      | '+' :: r => (false, r)
      | r => (false, r)
    let eDigits := rest.takeWhile Char.isDigit
    let rest1 := rest.dropWhile Char.isDigit
    if eDigits.isEmpty || !rest1.isEmpty then none
    else
      let e := digitsToNat eDigits
      some (if esgn then mkPyQ m (d * 10 ^ e) else mkPyQ (m * (10 ^ e : Nat)) d)

/-- Best-effort decimal rendering of a rational, standing in for str() on a
    Python float.  Exact for values with a power-of-ten denominator, which
    covers every float that a CSV cell or a debit/credit subtraction can
    produce in the tables considered here. -/
def floatStr (q : PyQ) : String :=
  let sgn := if q.num < 0 then "-" else ""
  let n := q.num.natAbs
  let d := q.den
  match (List.range 28).find? (fun k => 10 ^ k % d == 0) with
  | some k =>
    let scaled := n * (10 ^ k) / d
    let ip := scaled / 10 ^ k
    let fp := scaled % 10 ^ k
    let fpStr := String.mk (Nat.toDigits 10 fp)
    let fpPad := String.mk (List.replicate (k - fpStr.length) '0') ++ fpStr
    let fpTrim := String.mk (fpPad.toList.reverse.dropWhile (· = '0')).reverse
    sgn ++ toString ip ++ "." ++ (if fpTrim = "" then "0" else fpTrim)
  | none => sgn ++ toString n ++ "/" ++ toString d

/-- str() applied to a cell value, as used for the description column:
    a missing pandas cell is a float NaN and prints as nan. -/
def pyStr : Value → String
  | vNull => "nan"
  | vNum q => floatStr q
  | vStr s => s

/-! ## FileProcessor.parse_amount -/

/-- Characters removed by the currency-symbol regex of parse_amount:
    dollar, euro, pound, yen, rupee signs, commas and whitespace. -/
def isCurrencyStrip (c : Char) : Bool :=
  c = '$' || c = '€' || c = '£' || c = '¥' || c = '₹' || c = ',' ||
  c = ' ' || c = '\t' || c = '\n' || c = '\r' || c = '\x0b' || c = '\x0c'

/-- FileProcessor.parse_amount: strip, remove currency symbols and
    whitespace, turn a parenthesized value into a leading minus, then
    float(); returns none instead of raising on failure.  The initial
    falsiness test makes a missing cell, an empty string and the float 0.0
    all map to none. -/
def parse_amount : Value → Option PyQ
  | vNull => none
  | vNum q => if q.isZero then none else some q
  | vStr s =>
    if s = "" then none
    else
      let s1 := ((trimChars s.toList).filter (fun c => !isCurrencyStrip c))
      let s2 :=
        match s1.head?, s1.getLast? with
        | some '(', some ')' => '-' :: (s1.drop 1).dropLast
        | _, _ => s1
      pyFloat (String.mk s2)

/-! ## datetime.strptime, restricted to the directives used by parse_date -/

/-- Directives of the explicit format strings of parse_date. -/
inductive Dir where
  | dY4 : Dir
  | dY2 : Dir
  | dM : Dir
  | dD : Dir
  | dBFull : Dir
  | dBAbbr : Dir
  | dLit (c : Char) : Dir
  | dWs : Dir
deriving Repr

/-- Digit value of a character. -/
def dv (c : Char) : Nat := c.toNat - 48

/-- Two-digit month capture of strptime (regex 1[0-2] or 0[1-9]). -/
def mTwo : List Char → Option (Nat × List Char)
  | c1 :: c2 :: rest =>
    if c1.isDigit && c2.isDigit &&
       ((dv c1 = 1 && dv c2 ≤ 2) || (dv c1 = 0 && 1 ≤ dv c2)) then
      some (dv c1 * 10 + dv c2, rest)
    else none
  | _ => none

/-- Two-digit day capture of strptime (regex 3[01], [12] digit, or 0[1-9]). -/
def dTwo : List Char → Option (Nat × List Char)
  | c1 :: c2 :: rest =>
    if c1.isDigit && c2.isDigit &&
       ((dv c1 = 3 && dv c2 ≤ 1) || dv c1 = 1 || dv c1 = 2 ||
        (dv c1 = 0 && 1 ≤ dv c2)) then
      some (dv c1 * 10 + dv c2, rest)
    else none
  | _ => none

/-- One-digit capture [1-9], the last alternative for month and day. -/
def numOne : List Char → Option (Nat × List Char)
  | c1 :: rest => if c1.isDigit && 1 ≤ dv c1 then some (dv c1, rest) else none
  | [] => none

/-- Four-digit year capture of strptime. -/
def y4Cand : List Char → Option (Nat × List Char)
  | c1 :: c2 :: c3 :: c4 :: rest =>
    if c1.isDigit && c2.isDigit && c3.isDigit && c4.isDigit then
      some (((dv c1 * 10 + dv c2) * 10 + dv c3) * 10 + dv c4, rest)
    else none
  | _ => none

/-- Two-digit year capture of strptime. -/
def y2Cand : List Char → Option (Nat × List Char)
  | c1 :: c2 :: rest =>
    if c1.isDigit && c2.isDigit then some (dv c1 * 10 + dv c2, rest) else none
  | _ => none

/-- Case-insensitive prefix test on character lists. -/
def ciStarts : List Char → List Char → Bool
  | [], _ => true
  | _ :: _, [] => false
  | a :: as, b :: bs => a.toLower = b.toLower && ciStarts as bs

/-- Full English month names with their numbers. -/
def monthsFull : List (Nat × String) :=
  [(1, "january"), (2, "february"), (3, "march"), (4, "april"),
   (5, "may"), (6, "june"), (7, "july"), (8, "august"),
   (9, "september"), (10, "october"), (11, "november"), (12, "december")]

/-- Abbreviated English month names with their numbers. -/
def monthsAbbr : List (Nat × String) :=
  [(1, "jan"), (2, "feb"), (3, "mar"), (4, "apr"), (5, "may"), (6, "jun"),
   (7, "jul"), (8, "aug"), (9, "sep"), (10, "oct"), (11, "nov"), (12, "dec")]

/-- Case-insensitive month-name capture; at most one name can match a given
    position, so the alternation order of the strptime regex is immaterial. -/
def monthCand (tbl : List (Nat × String)) (s : List Char) : Option (Nat × List Char) :=
  tbl.findSome? (fun p =>
    if ciStarts p.2.toList s then some (p.1, s.drop p.2.toList.length) else none)

/-- Match a format (as a directive list) against an entire string, as
    strptime does: the match must consume the whole input.  A whitespace
    directive consumes a maximal nonempty whitespace run; this is equivalent
    to the backtracking regex because no subsequent directive of the formats
    used here can start with whitespace.  For month and day the two-digit
    alternatives are tried before the one-digit one, exactly as in the
    strptime regex alternation. -/
def matchDirs : List Dir → List Char → Nat → Nat → Nat → Option (Nat × Nat × Nat)
  | [], s, y, m, d => if s.isEmpty then some (y, m, d) else none
  | Dir.dLit c :: ds, s, y, m, d =>
    match s with
    | c2 :: rest => if c2 = c then matchDirs ds rest y m d else none
    | [] => none
  | Dir.dWs :: ds, s, y, m, d =>
    match s with
    | c2 :: rest =>
      if isPySpace c2 then matchDirs ds (rest.dropWhile isPySpace) y m d else none
    | [] => none
  | Dir.dY4 :: ds, s, _, m, d =>
    match y4Cand s with
    | some (v, rest) => matchDirs ds rest v m d
    | none => none
  | Dir.dY2 :: ds, s, _, m, d =>
    match y2Cand s with
    | some (v, rest) =>
      matchDirs ds rest (if v ≤ 68 then 2000 + v else 1900 + v) m d
    | none => none
  | Dir.dM :: ds, s, y, _, d =>
    (match mTwo s with
     | some (v, rest) => matchDirs ds rest y v d
     | none => none).orElse (fun _ =>
      match numOne s with
      | some (v, rest) => matchDirs ds rest y v d
      | none => none)
  | Dir.dD :: ds, s, y, m, _ =>
    (match dTwo s with
     | some (v, rest) => matchDirs ds rest y m v
     | none => none).orElse (fun _ =>
      match numOne s with
      | some (v, rest) => matchDirs ds rest y m v
      | none => none)
  | Dir.dBFull :: ds, s, y, _, d =>
    match monthCand monthsFull s with
    | some (v, rest) => matchDirs ds rest y v d
    | none => none
  | Dir.dBAbbr :: ds, s, y, _, d =>
    match monthCand monthsAbbr s with
    | some (v, rest) => matchDirs ds rest y v d
    | none => none

/-- Run one format: a full regex match followed by the range validation the
    datetime constructor performs. -/
def tryFormat (fmt : List Dir) (s : List Char) : Option PDate :=
  match matchDirs fmt s 0 0 0 with
  | some (y, m, d) => if PDate.valid ⟨y, m, d⟩ then some ⟨y, m, d⟩ else none
  | none => none

/-- The fourteen explicit formats of parse_date, in source order. -/
def dateFormats : List (List Dir) :=
  [[Dir.dY4, Dir.dLit '-', Dir.dM, Dir.dLit '-', Dir.dD],
   [Dir.dM, Dir.dLit '/', Dir.dD, Dir.dLit '/', Dir.dY4],
   [Dir.dM, Dir.dLit '/', Dir.dD, Dir.dLit '/', Dir.dY2],
   [Dir.dD, Dir.dLit '/', Dir.dM, Dir.dLit '/', Dir.dY4],
   [Dir.dD, Dir.dLit '/', Dir.dM, Dir.dLit '/', Dir.dY2],
   [Dir.dM, Dir.dLit '-', Dir.dD, Dir.dLit '-', Dir.dY4],
   [Dir.dM, Dir.dLit '-', Dir.dD, Dir.dLit '-', Dir.dY2],
   [Dir.dD, Dir.dLit '-', Dir.dM, Dir.dLit '-', Dir.dY4],
   [Dir.dD, Dir.dLit '-', Dir.dM, Dir.dLit '-', Dir.dY2],
   [Dir.dY4, Dir.dLit '/', Dir.dM, Dir.dLit '/', Dir.dD],
   [Dir.dBFull, Dir.dWs, Dir.dD, Dir.dLit ',', Dir.dWs, Dir.dY4],
   [Dir.dBAbbr, Dir.dWs, Dir.dD, Dir.dLit ',', Dir.dWs, Dir.dY4],
   [Dir.dD, Dir.dWs, Dir.dBFull, Dir.dWs, Dir.dY4],
   [Dir.dD, Dir.dWs, Dir.dBAbbr, Dir.dWs, Dir.dY4]]

/-- FileProcessor.parse_date on the cleaned string: the explicit formats are
    tried in order; when none matches, the generic pandas fallback fb
    (pd.to_datetime) is consulted; total failure yields none. -/
def parseDateStr (fb : String → Option PDate) (cs : List Char) : Option PDate :=
  match dateFormats.findSome? (fun f => tryFormat f cs) with
  | some d => some d
  | none => fb (String.mk cs)

/-- FileProcessor.parse_date on a raw cell value: missing and falsy values
    map to none at once, otherwise the value is coerced to a trimmed string
    and matched against the formats. -/
def parse_date (fb : String → Option PDate) : Value → Option PDate
  | vNull => none
  | vNum q => if q.isZero then none else parseDateStr fb (trimChars (floatStr q).toList)
  | vStr s => if s = "" then none else parseDateStr fb (trimChars s.toList)

/-- A fallback parser that always fails, for inputs on which the behavior of
    pd.to_datetime is not relied upon. -/
def fbNone : String → Option PDate := fun _ => none

/-! ## Record values at the validator and duplicate-detector level

  After extraction a transaction is a Python dict whose values can be
  strings, numbers, None, or date/datetime objects; the validator accepts
  both datetime.date and datetime.datetime for transaction_date, which is
  why the two are distinguished here. -/

/-- A Python value stored in a transaction dict. -/
inductive PyVal where
  | pnone : PyVal
  | pstr (s : String) : PyVal
  | pnum (q : PyQ) : PyVal
  | pdate (d : PDate) : PyVal
  | pdt (d : PDate) (secs : Nat) : PyVal
deriving DecidableEq, Repr

export PyVal (pnone pstr pnum pdate pdt)

/-- Python falsiness (bool(x) = False) for the values above. -/
def falsy : PyVal → Bool
  | pnone => true
  | pstr s => s = ""
  | pnum q => q.isZero
  | pdate _ => false
  | pdt _ _ => false

/-- A transaction dict as produced by the extractors and consumed by the
    validator and the duplicate detector. -/
structure Txn where
  description : PyVal
  amount : PyVal
  transaction_date : PyVal
  category : Option String
  account_type : String
deriving DecidableEq, Repr

/-! ## Tables and FileProcessor.standardize_csv_columns -/

/-- A DataFrame: column names plus rows of cells (each row listing its
    cells in column order). -/
structure Table where
  cols : List String
  rows : List (List Value)
deriving DecidableEq, Repr

/-- Cell of a row under a column name (first occurrence wins, as for a
    DataFrame with unique column labels). -/
def cellOf (cols : List String) (r : List Value) (c : String) : Value :=
  match cols.indexOf? c with
  | some i => r.getD i vNull
  | none => vNull

/-- The alias table of standardize_csv_columns, in source order. -/
def columnMapping : List (String × List String) :=
  [("date", ["date", "transaction_date", "trans_date", "posting_date",
             "post_date", "transaction date"]),
   ("description", ["description", "memo", "details", "transaction_details",
                    "payee", "merchant"]),
   ("amount", ["amount", "transaction_amount", "trans_amount"]),
   ("debit", ["debit", "withdrawal", "out", "outgoing"]),
   ("credit", ["credit", "deposit", "in", "incoming"]),
   ("balance", ["balance", "running_balance", "account_balance", "running_bal"]),
   ("category", ["category", "type", "transaction_type"])]

/-- str.lower().strip() on a column label. -/
def lowerTrim (s : String) : String :=
  String.mk (trimChars (s.toList.map Char.toLower))

/-- One canonical field of the alias loop: the first alias present among the
    columns is renamed to the canonical name, remaining aliases are left
    alone (the break in the source loop). -/
def renameFirst (cols : List String) (std : String) (vars : List String) : List String :=
  match vars.find? (fun v => cols.contains v) with
  | some v => cols.map (fun c => if c = v then std else c)
  | none => cols

/-- The column-label part of standardize_csv_columns: lower-case and trim
    all column names, then apply the alias renaming field by field. -/
def standardizeCols (cols : List String) : List String :=
  columnMapping.foldl (fun cs p => renameFirst cs p.1 p.2) (cols.map lowerTrim)

/-- FileProcessor.standardize_csv_columns: renames the column labels and
    leaves the cells untouched. -/
def standardize_csv_columns (t : Table) : Table :=
  ⟨standardizeCols t.cols, t.rows⟩

/-! ## FileProcessor.parse_transactions_from_csv -/

/-- fillna(0) on a cell. -/
def fillna0 : Value → Value
  | vNull => vNum (PyQ.ofInt 0)
  | v => v

/-- Elementwise pandas subtraction of two cells.  Subtracting anything
    involving a string raises a TypeError, which the caller of the
    debit/credit synthesis does not catch; a NaN operand propagates. -/
def vsub : Value → Value → Except String Value
  | vNum a, vNum b => .ok (vNum (a.sub b))
  | vNull, vNum _ => .ok vNull
  | vNum _, vNull => .ok vNull
  | vNull, vNull => .ok vNull
  | _, _ => .error "TypeError: unsupported operand type for -"

/-- The debit/credit synthesis, row by row: appends an amount cell holding
    credit.fillna(0) - debit.fillna(0). -/
def combineRows (cols : List String) : List (List Value) → Except String (List (List Value))
  | [] => .ok []
  | r :: rs =>
    match vsub (fillna0 (cellOf cols r "credit")) (fillna0 (cellOf cols r "debit")) with
    | .error e => .error e
    | .ok a =>
      match combineRows cols rs with
      | .error e => .error e
      | .ok rest => .ok ((r ++ [a]) :: rest)

/-- df.amount = df.credit.fillna(0) - df.debit.fillna(0): the synthesized
    column is appended to the table. -/
def combineDC (t : Table) : Except String Table :=
  match combineRows t.cols t.rows with
  | .ok rs => .ok ⟨t.cols ++ ["amount"], rs⟩
  | .error e => .error e

/-- The description skip test of the row loop: after str() coercion and
    strip, the description is empty or (lower-cased) one of the
    placeholders nan and none. -/
def descSkipped (v : Value) : Bool :=
  let desc := String.mk (trimChars (pyStr v).toList)
  let descL := String.mk (desc.toList.map Char.toLower)
  desc = "" || descL = "nan" || descL = "none"

/-- The body of the per-row loop of parse_transactions_from_csv: date, then
    amount, then cleaned description, then optional category; any failed
    step skips the row (none). -/
def parseRow (fb : String → Option PDate) (cols : List String) (amountCol : String)
    (r : List Value) : Option Txn :=
  match parse_date fb (cellOf cols r "date") with
  | none => none
  | some d =>
    match parse_amount (cellOf cols r amountCol) with
    | none => none
    | some a =>
      if descSkipped (cellOf cols r "description") then none
      else
        let desc := String.mk (trimChars (pyStr (cellOf cols r "description")).toList)
        let cat :=
          if cols.contains "category" && cellOf cols r "category" != vNull then
            some (String.mk (trimChars (pyStr (cellOf cols r "category")).toList))
          else none
        some ⟨pstr desc, pnum a, pdate d, cat, "Bank Account"⟩

/-- The row loop: each row contributes a record or is silently skipped. -/
def rowLoop (fb : String → Option PDate) (cols : List String) (amountCol : String) :
    List (List Value) → List Txn
  | [] => []
  | r :: rs =>
    match parseRow fb cols amountCol r with
    | none => rowLoop fb cols amountCol rs
    | some tx => tx :: rowLoop fb cols amountCol rs

/-- The two required canonical columns. -/
def requiredColumns : List String := ["date", "description"]

/-- The body of parse_transactions_from_csv over the two components of the
    DataFrame (its column labels and its rows).  An empty frame returns at
    once; then the columns are standardized, the two required columns are
    checked, the amount source is resolved (a canonical amount column is
    preferred, otherwise debit and credit are combined), and the row loop
    runs.  The result carries the record list together with the optional
    st.error diagnostic; an uncaught Python exception (possible only in the
    debit/credit synthesis) is the error case of the Except. -/
def parseCsvAux (fb : String → Option PDate) (cols : List String)
    (rows : List (List Value)) : Except String (List Txn × Option String) :=
  if rows.isEmpty || cols.isEmpty then .ok ([], none)
  else
    let c2 := standardizeCols cols
    let missing := requiredColumns.filter (fun c => !c2.contains c)
    if !missing.isEmpty then
      .ok ([], some ("Missing required columns: " ++ String.intercalate ", " missing))
    else if c2.contains "amount" then
      .ok (rowLoop fb c2 "amount" rows, none)
    else if c2.contains "debit" && c2.contains "credit" then
      match combineRows c2 rows with
      | .error e => .error e
      | .ok rs2 => .ok (rowLoop fb (c2 ++ ["amount"]) "amount" rs2, none)
    else
      .ok ([], some "No amount column found. Please ensure your CSV has amount, or debit and credit columns.")

/-- FileProcessor.parse_transactions_from_csv. -/
def parse_transactions_from_csv (fb : String → Option PDate) (t : Table) :
    Except String (List Txn × Option String) :=
  parseCsvAux fb t.cols t.rows

/-! ## TransactionParser.validate_transactions -/

/-- float() applied to a dict value, as in the amount coercion of the
    validator: numbers pass through, strings are parsed as float literals,
    anything else raises the TypeError that the validator catches. -/
def pyFloatCoerce : PyVal → Option PyQ
  | pnum q => some q
  | pstr s => pyFloat s
  | _ => none

/-- isinstance(x, (datetime, date)). -/
def isDateType : PyVal → Bool
  | pdate _ => true
  | pdt _ _ => true
  | _ => false

/-- The Row-n error string of the validator. -/
def rowMsg (i : Nat) (r : String) : String := s!"Row {i}: {r}"

/-- The validator loop, carrying the 1-based row index.  The checks are in
    source order: description present, amount present, transaction date
    present, amount coercible to float, transaction date of date or
    datetime type.  Each failure short-circuits the record with one error;
    a passing record is appended with its amount overwritten by the
    coercion result.  No check of the embedded loop can raise, so the
    generic except branch of the source is unreachable here. -/
def validateGo : Nat → List Txn → List Txn × List String
  | _, [] => ([], [])
  | i, t :: rest =>
    let res := validateGo (i + 1) rest
    if falsy t.description then (res.1, rowMsg i "Missing description" :: res.2)
    else if t.amount = pnone then (res.1, rowMsg i "Missing amount" :: res.2)
    else if falsy t.transaction_date then
      (res.1, rowMsg i "Missing transaction date" :: res.2)
    else
      match pyFloatCoerce t.amount with
      | none => (res.1, rowMsg i "Invalid amount format" :: res.2)
      | some q =>
        if isDateType t.transaction_date then
          ({ t with amount := pnum q } :: res.1, res.2)
        else (res.1, rowMsg i "Invalid date format" :: res.2)

/-- TransactionParser.validate_transactions. -/
def validate_transactions (ts : List Txn) : List Txn × List String :=
  validateGo 1 ts

/-! ## TransactionParser.get_duplicate_transactions -/

/-- A duplicate candidate: the two records plus the fixed similarity score. -/
structure DupCand where
  transaction1 : Txn
  transaction2 : Txn
  similarity_score : PyQ
deriving DecidableEq, Repr

/-- Python subtraction of two dict values in the amount position: defined
    for numbers, a TypeError otherwise. -/
def pySubQ : PyVal → PyVal → Except String PyQ
  | pnum a, pnum b => .ok (a.sub b)
  | _, _ => .error "TypeError: unsupported operand type for -"

/-- Python date subtraction followed by .days: defined between two dates
    (exact day difference) and between two datetimes (floor of the second
    difference over 86400); mixing a date with a datetime raises TypeError. -/
def dateDiffDays : PyVal → PyVal → Except String Int
  | pdate a, pdate b => .ok (a.toDays - b.toDays)
  | pdt a sa, pdt b sb =>
    .ok (Int.fdiv ((a.toDays * 86400 + (sa : Int)) - (b.toDays * 86400 + (sb : Int))) 86400)
  | _, _ => .error "TypeError: unsupported operand type for -"

/-- The duplicate test on one ordered pair, with the short-circuit order of
    the source conjunction: description equality first, then the amount
    difference, then the date difference. -/
def dupStep (t1 t2 : Txn) : Except String (Option DupCand) :=
  if t1.description = t2.description then
    match pySubQ t1.amount t2.amount with
    | .error e => .error e
    | .ok diff =>
      if diff.absQ.blt (mkPyQ 1 100) then
        match dateDiffDays t1.transaction_date t2.transaction_date with
        | .error e => .error e
        | .ok dd =>
          if dd.natAbs ≤ 1 then .ok (some ⟨t1, t2, mkPyQ 19 20⟩) else .ok none
      else .ok none
  else .ok none

/-- The inner loop: t1 against every later record, in order. -/
def dupInner (t1 : Txn) : List Txn → Except String (List DupCand)
  | [] => .ok []
  | t2 :: rest =>
    match dupStep t1 t2 with
    | .error e => .error e
    | .ok o =>
      match dupInner t1 rest with
      | .error e => .error e
      | .ok l => .ok (o.toList ++ l)

/-- TransactionParser.get_duplicate_transactions: every unordered pair,
    outer index ascending. -/
def get_duplicate_transactions : List Txn → Except String (List DupCand)
  | [] => .ok []
  | t :: rest =>
    match dupInner t rest with
    | .error e => .error e
    | .ok a =>
      match get_duplicate_transactions rest with
      | .error e => .error e
      | .ok b => .ok (a ++ b)

/-- True exactly on the error case of an Except (a propagating Python
    exception in this embedding). -/
def isError {ε α : Type} : Except ε α → Bool
  | .error _ => true
  | .ok _ => false

/-! ## A small regex engine for the PDF line patterns

  The four patterns of parse_transactions_from_pdf are linear sequences of
  single-character classes under bounded or unbounded repetition, plus three
  capture groups.  Such a pattern is represented as a token list; matching
  enumerates, for each repetition, the possible consumption counts in the
  backtracking-priority order of the regex engine (greedy: longest first;
  lazy: shortest first), which is complete because every repetition body
  consumes exactly one character. -/

/-- One token of a pattern: a repeated character class (with bounds and
    greediness) or a capture-group delimiter. -/
inductive Tok where
  | cls (p : Char → Bool) (lo : Nat) (hi : Option Nat) (lzy : Bool) : Tok
  | gOpen : Tok
  | gClose : Tok

/-- Length of the maximal prefix satisfying p. -/
def runLen (p : Char → Bool) : List Char → Nat
  | [] => 0
  | c :: cs => if p c then runLen p cs + 1 else 0

/-- Consumption counts to try for one repetition, in priority order. -/
def repCounts (p : Char → Bool) (lo : Nat) (hi : Option Nat) (lzy : Bool)
    (s : List Char) : List Nat :=
  let u := min (hi.getD (runLen p s)) (runLen p s)
  if lo > u then []
  else if lzy then List.range' lo (u - lo + 1)
  else (List.range' lo (u - lo + 1)).reverse

/-- Match a token list at the head of the input, returning the captured
    groups and the rest of the input after the match.  The fuel only serves
    structural recursion; one unit is spent per token. -/
def mrun : Nat → List Tok → List Char → Option (List Char) → List String →
    Option (List String × List Char)
  | 0, _, _, _, _ => none
  | _ + 1, [], s, _, gs => some (gs.reverse, s)
  | fuel + 1, Tok.gOpen :: ts, s, _, gs => mrun fuel ts s (some []) gs
  | fuel + 1, Tok.gClose :: ts, s, cur, gs =>
    mrun fuel ts s none (String.mk (cur.getD []) :: gs)
  | fuel + 1, Tok.cls p lo hi lzy :: ts, s, cur, gs =>
    (repCounts p lo hi lzy s).findSome? (fun n =>
      mrun fuel ts (s.drop n) (cur.map (fun b => b ++ s.take n)) gs)

/-- re.findall: scan left to right, taking at each position the first match
    the backtracking engine yields, and continuing after its end.  The fuel
    decreases at every scanning step. -/
def findallAux (toks : List Tok) : Nat → List Char → List (List String)
  | 0, _ => []
  | fuel + 1, s =>
    match mrun (toks.length + 1) toks s none [] with
    | some (gs, rest) =>
      if rest.length < s.length then gs :: findallAux toks fuel rest
      else
        match s with
        | [] => [gs]
        | _ :: tail => gs :: findallAux toks fuel tail
    | none =>
      match s with
      | [] => []
      | _ :: tail => findallAux toks fuel tail

/-- re.findall over a string, returning the capture tuples of each match. -/
def findall (toks : List Tok) (s : String) : List (List String) :=
  findallAux toks (s.length + 1) s.toList

/-- A single literal character as a token. -/
def tLit (c : Char) : Tok := Tok.cls (fun x => x = c) 1 (some 1) false

/-- An optional literal character. -/
def tOpt (c : Char) : Tok := Tok.cls (fun x => x = c) 0 (some 1) false

/-- The three shared tail tokens of every pattern: one-or-more whitespace,
    the lazy description group, whitespace, and the amount group
    (-? dollar? [digit or comma]+ dot? digit*). -/
def tailToks : List Tok :=
  [Tok.cls isPySpace 1 none false,
   Tok.gOpen, Tok.cls (fun c => c ≠ '\n') 1 none true, Tok.gClose,
   Tok.cls isPySpace 1 none false,
   Tok.gOpen, tOpt '-', tOpt '$',
   Tok.cls (fun c => c.isDigit || c = ',') 1 none false,
   tOpt '.', Tok.cls Char.isDigit 0 none false, Tok.gClose]

/-- Date group with a separator: digit{1,2} sep digit{1,2} sep digit{2,4}. -/
def dateGroup (sep : Char) : List Tok :=
  [Tok.gOpen, Tok.cls Char.isDigit 1 (some 2) false, tLit sep,
   Tok.cls Char.isDigit 1 (some 2) false, tLit sep,
   Tok.cls Char.isDigit 2 (some 4) false, Tok.gClose]

/-- ISO date group: digit{4} - digit{1,2} - digit{1,2}. -/
def dateGroupIso : List Tok :=
  [Tok.gOpen, Tok.cls Char.isDigit 4 (some 4) false, tLit '-',
   Tok.cls Char.isDigit 1 (some 2) false, tLit '-',
   Tok.cls Char.isDigit 1 (some 2) false, Tok.gClose]

/-- The four patterns of parse_transactions_from_pdf, in source order; the
    first and third pattern strings of the source are identical. -/
def pdfPatterns : List (List Tok) :=
  [dateGroup '/' ++ tailToks,
   dateGroup '-' ++ tailToks,
   dateGroup '/' ++ tailToks,
   dateGroupIso ++ tailToks]

/-- FileProcessor.parse_transactions_from_pdf: every pattern is run with
    findall against the whole text independently; each capture triple whose
    date and amount normalize and whose trimmed description is nonempty
    becomes a record. -/
def parse_transactions_from_pdf (fb : String → Option PDate) (text : String) : List Txn :=
  if text = "" then []
  else
    pdfPatterns.flatMap (fun pat =>
      (findall pat text).filterMap (fun groups =>
        match groups with
        | [dateStr, descStr, amtStr] =>
          match parse_date fb (vStr dateStr) with
          | none => none
          | some d =>
            match parse_amount (vStr amtStr) with
            | none => none
            | some a =>
              let desc := String.mk (trimChars descStr.toList)
              if desc = "" then none
              else some ⟨pstr desc, pnum a, pdate d, none, "Bank Account"⟩
        | _ => none))

/-! ## Specification-side definitions

  The definitions below restate, in the vocabulary of the specification,
  what the loops above are claimed to compute; the claim theorems compare
  them with the embedded loops. -/

/-- Numeric reading of a cell with a missing value as 0, the claimed
    meaning of fillna(0) inside the debit/credit synthesis; undefined
    (none) on string cells. -/
def asNumOr0 : Value → Option PyQ
  | vNull => some (PyQ.ofInt 0)
  | vNum q => some q
  | vStr _ => none

/-- First failing validator check of a record, in the order the source
    performs them: description present, amount present, transaction date
    present, amount coercible, transaction date of date or datetime type. -/
def firstFailure (t : Txn) : Option String :=
  if falsy t.description then some "Missing description"
  else if t.amount = pnone then some "Missing amount"
  else if falsy t.transaction_date then some "Missing transaction date"
  else
    match pyFloatCoerce t.amount with
    | none => some "Invalid amount format"
    | some _ => if isDateType t.transaction_date then none else some "Invalid date format"

/-- A record with its amount overwritten by the float coercion, as the
    validator mutates it. -/
def coerceAmt (t : Txn) : Txn :=
  { t with amount := pnum ((pyFloatCoerce t.amount).getD (PyQ.ofInt 0)) }

/-- The claimed valid output of the validator: the passing records, in
    input order, with coerced amounts. -/
def validSpec (ts : List Txn) : List Txn :=
  ts.filterMap (fun t => if firstFailure t = none then some (coerceAmt t) else none)

/-- The claimed error output of the validator from a given 1-based starting
    index: one Row-n message per failing record. -/
def errSpecFrom (i : Nat) (ts : List Txn) : List String :=
  (List.enumFrom i ts).filterMap (fun p => (firstFailure p.2).map (fun r => rowMsg p.1 r))

/-- The claimed duplicate condition on an ordered pair of well-typed
    records: identical description, amount difference below 0.01, dates at
    most one day apart; false when amount or date is not of the expected
    shape. -/
def isDupB (a b : Txn) : Bool :=
  match a.amount, b.amount, a.transaction_date, b.transaction_date with
  | pnum x, pnum y, pdate u, pdate v =>
    decide (a.description = b.description) &&
    ((x.sub y).absQ.blt (mkPyQ 1 100)) &&
    decide ((u.toDays - v.toDays).natAbs ≤ 1)
  | _, _, _, _ => false

/-- The claimed duplicate-detector output: every unordered pair, first
    index ascending, each flagged pair reported with score 0.95. -/
def dupSpec : List Txn → List DupCand
  | [] => []
  | t :: rest =>
    rest.filterMap (fun u => if isDupB t u then some ⟨t, u, mkPyQ 19 20⟩ else none)
      ++ dupSpec rest

/-- Well-typedness of a record after validation from the extractors: a
    numeric amount and a plain-date transaction date. -/
def wellTypedTxn (t : Txn) : Bool :=
  (match t.amount with | pnum _ => true | _ => false) &&
  (match t.transaction_date with | pdate _ => true | _ => false)

/-! ## Concrete inputs used by the claim theorems -/

/-- A record with a plain-date transaction date. -/
def mixedA : Txn := ⟨pstr "X", pnum (PyQ.ofInt 10), pdate ⟨2024, 1, 1⟩, none, "Bank Account"⟩

/-- The same record but with a datetime transaction date; the validator
    accepts both. -/
def mixedB : Txn := ⟨pstr "X", pnum (PyQ.ofInt 10), pdt ⟨2024, 1, 1⟩ 0, none, "Bank Account"⟩

/-- A table whose debit and credit cells are strings, so the synthesized
    subtraction raises. -/
def stringDebitTable : Table :=
  ⟨["date", "description", "debit", "credit"],
   [[vStr "2024-01-05", vStr "A", vStr "abc", vStr "x"]]⟩

/-- A debit/credit table with numeric cells and one missing debit. -/
def dcTable : Table :=
  ⟨["date", "description", "debit", "credit"],
   [[vStr "2024-01-05", vStr "A", vNum (mkPyQ 5 2), vNum (PyQ.ofInt 10)],
    [vStr "2024-01-05", vStr "B", vNull, vNum (PyQ.ofInt 5)]]⟩

/-- A table carrying an amount column alongside debit and credit. -/
def prefTable : Table :=
  ⟨["date", "description", "amount", "debit", "credit"],
   [[vStr "2024-01-05", vStr "A", vNum (PyQ.ofInt 7), vNum (PyQ.ofInt 100),
     vNum (PyQ.ofInt 3)]]⟩

/-- The header row of the column-mapping example of the specification. -/
def postingTable : Table := ⟨["Posting Date", "Memo", "Debit", "Credit"], []⟩

/-- The canonical three-column header. -/
def canonCols : List String := ["date", "description", "amount"]

/-- A well-formed row under the canonical header. -/
def goodRow : List Value := [vStr "2024-01-05", vStr "Coffee", vStr "4.50"]

/-- A row whose date cell no format and no fallback can parse. -/
def badRow : List Value := [vStr "not-a-date", vStr "Coffee", vStr "4.50"]

/-- A row whose amount cell does not parse. -/
def badAmtRow : List Value := [vStr "2024-01-05", vStr "Coffee", vStr "oops"]

/-- A row whose description trims to the placeholder nan. -/
def badDescRow : List Value := [vStr "2024-01-05", vStr " nan ", vStr "4.50"]

/-- 100 well-formed rows plus 3 rows with unparseable dates. -/
def c6Table : Table :=
  ⟨canonCols, List.replicate 100 goodRow ++ List.replicate 3 badRow⟩

/-- The record extracted from goodRow. -/
def goodTxn : Txn :=
  ⟨pstr "Coffee", pnum (mkPyQ 9 2), pdate ⟨2024, 1, 5⟩, none, "Bank Account"⟩

/-- A valid record for the validator example. -/
def vOk : Txn := ⟨pstr "Coffee", pnum (PyQ.ofInt 5), pdate ⟨2024, 1, 1⟩, none, "Bank Account"⟩

/-- A record missing its description. -/
def vNoDesc : Txn := ⟨pnone, pnum (PyQ.ofInt 5), pdate ⟨2024, 1, 1⟩, none, "Bank Account"⟩

/-- Ten valid records and two records missing description, the latter at
    input positions 3 and 7. -/
def v12 : List Txn :=
  [vOk, vOk, vNoDesc, vOk, vOk, vOk, vNoDesc, vOk, vOk, vOk, vOk, vOk]

/-- A record with description present, a non-coercible string amount, and a
    missing transaction date. -/
def cexTxn : Txn := ⟨pstr "x", pstr "abc", pnone, none, ""⟩

/-- Duplicate-example record: description Coffee, amount 100.00, January 1. -/
def dupT1 : Txn :=
  ⟨pstr "Coffee", pnum (PyQ.ofInt 100), pdate ⟨2024, 1, 1⟩, none, "Bank Account"⟩

/-- Same description, amount 100.005, one day later. -/
def dupT2 : Txn :=
  ⟨pstr "Coffee", pnum (mkPyQ 20001 200), pdate ⟨2024, 1, 2⟩, none, "Bank Account"⟩

/-- Same description, amount 105.00, one day later. -/
def dupT3 : Txn :=
  ⟨pstr "Coffee", pnum (PyQ.ofInt 105), pdate ⟨2024, 1, 2⟩, none, "Bank Account"⟩

/-- A table with one column, no rows, and no date column: pandas reports it
    empty, so extraction returns before any diagnostic. -/
def emptyNoDateTable : Table := ⟨["foo"], []⟩

/-- A one-row table without a date or description column. -/
def noDateRowTable : Table := ⟨["foo", "bar"], [[vNull, vNull]]⟩

/-! ## Helper lemmas -/

/-- Standardization acts on the column labels componentwise. -/
theorem std_cols (t : Table) :
    (standardize_csv_columns t).cols = standardizeCols t.cols := rfl

/-- On the canonical three-column header, extraction always reaches the row
    loop and reports no diagnostic. -/
theorem canonParse (fb : String → Option PDate) (rows : List (List Value)) :
    parse_transactions_from_csv fb ⟨canonCols, rows⟩ =
      .ok (rowLoop fb canonCols "amount" rows, none) := by
  show parseCsvAux fb canonCols rows = _
  cases rows <;> rfl

/-- A row the per-row parser rejects leaves the row loop output unchanged,
    wherever it sits in the batch. -/
theorem rowLoop_skip (fb : String → Option PDate) (post : List (List Value))
    (bad : List Value) (hrow : parseRow fb canonCols "amount" bad = none) :
    ∀ pre : List (List Value),
      rowLoop fb canonCols "amount" (pre ++ bad :: post) =
        rowLoop fb canonCols "amount" (pre ++ post) := by
  intro pre
  induction pre with
  | nil => simp [rowLoop, hrow]
  | cons r rs ih =>
    cases h : parseRow fb canonCols "amount" r <;> simp [rowLoop, h, ih]

/-- One step of the validator loop, expressed through the first failing
    check of the record. -/
theorem validateGo_cons (i : Nat) (t : Txn) (rest : List Txn) :
    validateGo i (t :: rest) =
      match firstFailure t with
      | some r => ((validateGo (i + 1) rest).1, rowMsg i r :: (validateGo (i + 1) rest).2)
      | none => (coerceAmt t :: (validateGo (i + 1) rest).1, (validateGo (i + 1) rest).2) := by
  by_cases h1 : falsy t.description = true
  · simp [validateGo, firstFailure, h1]
  · by_cases h2 : t.amount = pnone
    · simp [validateGo, firstFailure, h1, h2]
    · by_cases h3 : falsy t.transaction_date = true
      · simp [validateGo, firstFailure, h1, h2, h3]
      · cases hc : pyFloatCoerce t.amount with
        | none => simp [validateGo, firstFailure, h1, h2, h3, hc]
        | some q =>
          by_cases h4 : isDateType t.transaction_date = true <;>
            simp [validateGo, firstFailure, coerceAmt, h1, h2, h3, hc, h4]

/-- The validator loop computes the specified valid sublist and indexed
    error list, from any starting index. -/
theorem validateGo_spec (ts : List Txn) : ∀ i : Nat,
    validateGo i ts = (validSpec ts, errSpecFrom i ts) := by
  induction ts with
  | nil => intro i; rfl
  | cons t rest ih =>
    intro i
    rw [validateGo_cons, ih (i + 1)]
    unfold validSpec errSpecFrom
    cases hf : firstFailure t with
    | none => simp [List.filterMap_cons, hf, List.enumFrom]
    | some r => simp [List.filterMap_cons, hf, List.enumFrom]

/-- A well-typed record carries a numeric amount and a plain date. -/
theorem wellTyped_shapes (t : Txn) (h : wellTypedTxn t = true) :
    (∃ q, t.amount = pnum q) ∧ (∃ d, t.transaction_date = pdate d) := by
  cases ha : t.amount <;> cases hd : t.transaction_date <;>
    simp [wellTypedTxn, ha, hd] at h ⊢

/-- On well-typed records the pairwise step never raises and agrees with
    the specified duplicate condition. -/
theorem dupStep_wt (a b : Txn) (ha : wellTypedTxn a = true) (hb : wellTypedTxn b = true) :
    dupStep a b = .ok (if isDupB a b then some ⟨a, b, mkPyQ 19 20⟩ else none) := by
  obtain ⟨⟨x, hx⟩, ⟨u, hu⟩⟩ := wellTyped_shapes a ha
  obtain ⟨⟨y, hy⟩, ⟨v, hv⟩⟩ := wellTyped_shapes b hb
  simp only [dupStep, isDupB, hx, hy, hu, hv, pySubQ, dateDiffDays]
  by_cases hd : a.description = b.description
  · by_cases hq : (x.sub y).absQ.blt (mkPyQ 1 100) = true
    · by_cases hdd : (u.toDays - v.toDays).natAbs ≤ 1 <;> simp [hd, hq, hdd]
    · simp [hd, hq]
  · simp [hd]

/-- The inner loop collects exactly the flagged later partners of a
    record. -/
theorem dupInner_spec (t : Txn) (ht : wellTypedTxn t = true) :
    ∀ rest : List Txn, (∀ u ∈ rest, wellTypedTxn u = true) →
      dupInner t rest = .ok (rest.filterMap (fun u =>
        if isDupB t u then some ⟨t, u, mkPyQ 19 20⟩ else none)) := by
  intro rest
  induction rest with
  | nil => intro _; rfl
  | cons u us ih =>
    intro h
    have hu := h u (List.mem_cons_self u us)
    have hus := fun v hv => h v (List.mem_cons_of_mem u hv)
    simp only [dupInner]
    rw [dupStep_wt t u ht hu, ih hus]
    cases hdup : isDupB t u <;> simp [hdup, List.filterMap_cons]

/-- The fillna-and-subtract step on cells that are missing or numeric. -/
theorem vsub_fillna (c d : Value) (hc : (asNumOr0 c).isSome) (hd : (asNumOr0 d).isSome) :
    vsub (fillna0 c) (fillna0 d) =
      .ok (vNum (((asNumOr0 c).getD (PyQ.ofInt 0)).sub
                 ((asNumOr0 d).getD (PyQ.ofInt 0)))) := by
  cases c <;> cases d <;> simp_all [asNumOr0, fillna0, vsub]

/-- Row-by-row characterization of the debit/credit synthesis on tables
    whose debit and credit cells are missing or numeric. -/
theorem combineRows_spec (cols : List String) (rows : List (List Value))
    (h : ∀ r ∈ rows, (asNumOr0 (cellOf cols r "credit")).isSome
         ∧ (asNumOr0 (cellOf cols r "debit")).isSome) :
    combineRows cols rows = .ok (rows.map (fun r =>
      r ++ [vNum (((asNumOr0 (cellOf cols r "credit")).getD (PyQ.ofInt 0)).sub
                  ((asNumOr0 (cellOf cols r "debit")).getD (PyQ.ofInt 0)))])) := by
  induction rows with
  | nil => rfl
  | cons r rs ih =>
    obtain ⟨hc, hd⟩ := h r (List.mem_cons_self r rs)
    simp only [combineRows]
    rw [vsub_fillna _ _ hc hd, ih (fun v hv => h v (List.mem_cons_of_mem r hv))]
    rfl

/-! ## Claim theorems -/

/-- Claim C1: the spec requires that no exception escape the public pipeline
    entry points, naming in particular the synthesized debit/credit
    subtraction on non-numeric cells and mixed date/datetime values reaching
    the duplicate-detector date subtraction.  The code violates this intent:
    on a table whose debit and credit cells are strings the pandas column
    subtraction raises a TypeError outside the per-row try block of
    parse_transactions_from_csv, and two records that the validator accepts
    (one date, one datetime) make get_duplicate_transactions raise a
    TypeError in the date subtraction.  This theorem evaluates the embedded
    code at both failing inputs: the extraction and the duplicate detection
    end in the error case, while validation accepts the mixed records. -/
theorem pipeline_exceptions_on_bad_inputs :
    isError (parse_transactions_from_csv fbNone stringDebitTable) = true
    ∧ validate_transactions [mixedA, mixedB] = ([mixedA, mixedB], [])
    ∧ isError (get_duplicate_transactions [mixedA, mixedB]) = true :=
  ⟨rfl, rfl, rfl⟩

/-- Claim C2: when the standardized table has no canonical amount column but
    has both debit and credit columns, the extractor synthesizes, for every
    row, amount = credit minus debit with missing cells treated as 0; a
    canonical amount column, when present, is preferred over the synthesis.
    The first conjunct characterizes the synthesized column on every table
    whose debit and credit cells are missing or numeric; the second runs a
    debit/credit table end to end (10 - 2.5 = 7.5, and 5 - missing = 5); the
    third shows that with an amount column present the record amount comes
    from that column (7), not from credit minus debit. -/
theorem debit_credit_synthesis (t : Table)
    (h : ∀ r ∈ t.rows, (asNumOr0 (cellOf t.cols r "credit")).isSome
         ∧ (asNumOr0 (cellOf t.cols r "debit")).isSome) :
    combineDC t = .ok ⟨t.cols ++ ["amount"], t.rows.map (fun r =>
      r ++ [vNum (((asNumOr0 (cellOf t.cols r "credit")).getD (PyQ.ofInt 0)).sub
                  ((asNumOr0 (cellOf t.cols r "debit")).getD (PyQ.ofInt 0)))])⟩
    ∧ parse_transactions_from_csv fbNone dcTable =
        .ok ([⟨pstr "A", pnum (mkPyQ 15 2), pdate ⟨2024, 1, 5⟩, none, "Bank Account"⟩,
              ⟨pstr "B", pnum (PyQ.ofInt 5), pdate ⟨2024, 1, 5⟩, none, "Bank Account"⟩], none)
    ∧ parse_transactions_from_csv fbNone prefTable =
        .ok ([⟨pstr "A", pnum (PyQ.ofInt 7), pdate ⟨2024, 1, 5⟩, none, "Bank Account"⟩], none) := by
  refine ⟨?_, rfl, rfl⟩
  unfold combineDC
  rw [combineRows_spec t.cols t.rows h]

/-- Witness for claim C2 at the concrete debit/credit table: the synthesis
    appends amount cells 7.5 and 5. -/
theorem debit_credit_synthesis_witness :
    combineDC dcTable = .ok ⟨["date", "description", "debit", "credit", "amount"],
      [[vStr "2024-01-05", vStr "A", vNum (mkPyQ 5 2), vNum (PyQ.ofInt 10), vNum (mkPyQ 15 2)],
       [vStr "2024-01-05", vStr "B", vNull, vNum (PyQ.ofInt 5), vNum (PyQ.ofInt 5)]]⟩ :=
  ((debit_credit_synthesis dcTable (by decide)).1).trans (by rfl)

/-- Counterexample to claim C3: on the headers Posting Date, Memo, Debit,
    Credit, the canonical field date is NOT mapped, because the lower-cased
    trimmed header is the string posting date with a space, which is not
    among the date aliases (these list posting_date and post_date with
    underscores, and only transaction date with a space). -/
theorem posting_date_not_mapped :
    "date" ∉ (standardize_csv_columns postingTable).cols := by decide

/-- Amended claim C3: standardize_csv_columns on the headers Posting Date,
    Memo, Debit, Credit lower-cases and trims all headers, maps description
    to the Memo column, leaves debit and credit under their own canonical
    names, and leaves the posting date header unmapped, so no canonical
    date column results. -/
theorem posting_header_standardization :
    standardize_csv_columns postingTable =
      ⟨["posting date", "description", "debit", "credit"], []⟩ := rfl

/-- Claim C4: on every batch of records with numeric amounts and plain-date
    transaction dates, the duplicate detector examines all unordered pairs
    (first index ascending) and flags a pair exactly when the descriptions
    are identical, the absolute amount difference is below 0.01, and the
    dates are at most one day apart, reporting the fixed similarity score
    0.95 for every flagged pair. -/
theorem duplicate_detector_all_pairs (ts : List Txn)
    (h : ∀ t ∈ ts, wellTypedTxn t = true) :
    get_duplicate_transactions ts = .ok (dupSpec ts) := by
  induction ts with
  | nil => rfl
  | cons t rest ih =>
    have ht := h t (List.mem_cons_self t rest)
    have hrest := fun v hv => h v (List.mem_cons_of_mem t hv)
    simp only [get_duplicate_transactions, dupSpec]
    rw [dupInner_spec t ht rest hrest, ih hrest]

/-- Witness for claim C4: records with identical description, amounts
    100.00 and 100.005, and dates one day apart are flagged with score
    0.95, while an otherwise identical pair with amounts differing by 5.00
    is not flagged. -/
theorem duplicate_detector_all_pairs_witness :
    get_duplicate_transactions [dupT1, dupT2] = .ok [⟨dupT1, dupT2, mkPyQ 19 20⟩]
    ∧ get_duplicate_transactions [dupT1, dupT3] = .ok [] :=
  ⟨(duplicate_detector_all_pairs [dupT1, dupT2] (by decide)).trans (by rfl),
   (duplicate_detector_all_pairs [dupT1, dupT3] (by decide)).trans (by rfl)⟩

/-- Counterexample to claim C5: a table with one column and no rows lacks
    the canonical date column after standardization, yet extraction returns
    an empty record list with NO diagnostic, because the pandas empty check
    returns before the missing-column check; the claim promises a
    diagnostic whenever the precondition fails. -/
theorem empty_table_abort_without_diagnostic :
    parse_transactions_from_csv fbNone emptyNoDateTable = .ok ([], none)
    ∧ "date" ∉ (standardize_csv_columns emptyNoDateTable).cols :=
  ⟨rfl, by decide⟩

/-- Amended claim C5: on every table with at least one row and one column,
    whenever a table-level precondition fails (the standardized table lacks
    a canonical date or description column, or no amount source is
    resolvable: no amount column and not both debit and credit), extraction
    aborts for the entire input with an empty record list and a single
    diagnostic message, never a partial list; an entirely empty table
    instead returns an empty list with no diagnostic. -/
theorem table_precondition_abort (fb : String → Option PDate) (t : Table)
    (h1 : t.rows ≠ []) (h2 : t.cols ≠ [])
    (h3 : "date" ∉ (standardize_csv_columns t).cols
        ∨ "description" ∉ (standardize_csv_columns t).cols
        ∨ ("amount" ∉ (standardize_csv_columns t).cols
           ∧ ("debit" ∉ (standardize_csv_columns t).cols
              ∨ "credit" ∉ (standardize_csv_columns t).cols))) :
    ∃ msg, parse_transactions_from_csv fb t = .ok ([], some msg) := by
  rw [std_cols] at h3
  obtain ⟨cols, rows⟩ := t
  show ∃ msg, parseCsvAux fb cols rows = .ok ([], some msg)
  cases rows with
  | nil => exact absurd rfl h1
  | cons r rs =>
    cases cols with
    | nil => exact absurd rfl h2
    | cons c cs =>
      unfold parseCsvAux
      simp only at h3
      generalize hg : standardizeCols (c :: cs) = s2
      rw [hg] at h3
      by_cases hda : "date" ∈ s2
      · by_cases hde : "description" ∈ s2
        · rcases h3 with h3 | h3 | ⟨hamt, hdc⟩
          · exact absurd hda h3
          · exact absurd hde h3
          · rcases hdc with hdc | hdc <;>
              · simp [requiredColumns, List.filter, hda, hde, hamt, hdc]
        · simp [requiredColumns, List.filter, hda, hde]
      · simp [requiredColumns, List.filter, hda]

/-- Witness for amended claim C5 at a one-row table with neither date nor
    description columns. -/
theorem table_precondition_abort_witness :
    ∃ msg, parse_transactions_from_csv fbNone noDateRowTable = .ok ([], some msg) :=
  table_precondition_abort fbNone noDateRowTable (by decide) (by decide) (by decide)

set_option maxRecDepth 20000 in
/-- Counterexample to claim C6: a table of 100 well-formed rows plus 3 rows
    with unparseable dates yields exactly 100 records, not the 97 the claim
    states, with no diagnostic and no error entry. -/
theorem hundred_good_three_bad_rows :
    parse_transactions_from_csv fbNone c6Table = .ok (List.replicate 100 goodTxn, none)
    ∧ (List.replicate 100 goodTxn).length ≠ 97 :=
  ⟨rfl, by decide⟩

/-- Amended claim C6: rows are processed independently during tabular
    extraction: a row whose date fails to parse, whose amount fails to
    parse, or whose trimmed description is empty or a placeholder is
    silently skipped: the batch output equals the output without that row,
    the batch is never aborted, and no diagnostic and no error entry is
    produced; hence a table of 100 well-formed rows plus 3 unparseable-date
    rows yields exactly 100 records (not 97) and an empty error list. -/
theorem row_level_skip_silent (fb : String → Option PDate)
    (pre post : List (List Value)) (bad : List Value)
    (hbad : parse_date fb (cellOf canonCols bad "date") = none
          ∨ parse_amount (cellOf canonCols bad "amount") = none
          ∨ descSkipped (cellOf canonCols bad "description") = true) :
    parse_transactions_from_csv fb ⟨canonCols, pre ++ bad :: post⟩ =
      parse_transactions_from_csv fb ⟨canonCols, pre ++ post⟩
    ∧ ∃ recs, parse_transactions_from_csv fb ⟨canonCols, pre ++ post⟩ =
        .ok (recs, none) := by
  have hrow : parseRow fb canonCols "amount" bad = none := by
    rcases hbad with h | h | h
    · unfold parseRow
      rw [h]
    · unfold parseRow
      cases hd : parse_date fb (cellOf canonCols bad "date") <;> simp [hd, h]
    · unfold parseRow
      cases hd : parse_date fb (cellOf canonCols bad "date") <;> simp only [hd]
      cases ha : parse_amount (cellOf canonCols bad "amount") <;> simp [ha, h]
  rw [canonParse, canonParse, rowLoop_skip fb post bad hrow pre]
  exact ⟨rfl, _, rfl⟩

/-- Witness for amended claim C6 at concrete three-row tables, one per skip
    condition: an unparseable date, an unparseable amount, and a
    placeholder description, each in the middle of two well-formed rows. -/
theorem row_level_skip_silent_witness :
    (parse_transactions_from_csv fbNone ⟨canonCols, [goodRow, badRow, goodRow]⟩ =
       parse_transactions_from_csv fbNone ⟨canonCols, [goodRow, goodRow]⟩
     ∧ ∃ recs, parse_transactions_from_csv fbNone ⟨canonCols, [goodRow, goodRow]⟩ =
         .ok (recs, none))
    ∧ (parse_transactions_from_csv fbNone ⟨canonCols, [goodRow, badAmtRow, goodRow]⟩ =
         parse_transactions_from_csv fbNone ⟨canonCols, [goodRow, goodRow]⟩
       ∧ ∃ recs, parse_transactions_from_csv fbNone ⟨canonCols, [goodRow, goodRow]⟩ =
           .ok (recs, none))
    ∧ (parse_transactions_from_csv fbNone ⟨canonCols, [goodRow, badDescRow, goodRow]⟩ =
         parse_transactions_from_csv fbNone ⟨canonCols, [goodRow, goodRow]⟩
       ∧ ∃ recs, parse_transactions_from_csv fbNone ⟨canonCols, [goodRow, goodRow]⟩ =
           .ok (recs, none)) :=
  ⟨row_level_skip_silent fbNone [goodRow] [goodRow] badRow (Or.inl (by decide)),
   row_level_skip_silent fbNone [goodRow] [goodRow] badAmtRow (Or.inr (Or.inl (by decide))),
   row_level_skip_silent fbNone [goodRow] [goodRow] badDescRow (Or.inr (Or.inr (by decide)))⟩

/-- Counterexample to claim C7: the claim lists the check order description,
    amount present, amount coercible, date present; the code checks date
    presence BEFORE amount coercibility, so a record with description
    present, the non-coercible amount string abc, and a missing date gets
    the missing-transaction-date error, not the invalid-amount-format error
    the claimed order implies. -/
theorem validator_date_check_precedes_coercion :
    validate_transactions [cexTxn] = ([], ["Row 1: Missing transaction date"])
    ∧ ["Row 1: Missing transaction date"] ≠ ["Row 1: Invalid amount format"] :=
  ⟨rfl, by decide⟩

/-- Amended claim C7: for every list of records, validate returns the
    sublist of records passing all checks in input order (with amounts
    overwritten by the float coercion) and one error string Row n: reason
    per failing record, n being the 1-based input position; the checks run
    in the source order description present, amount present, date present,
    amount coercible, date of date or datetime type, and the first failure
    short-circuits the record.  In the embedding no check can raise, so the
    generic per-record exception handler of the source is unreachable.
    Ten valid records plus two missing descriptions at positions 3 and 7
    yield ten valid records and exactly those two error strings. -/
theorem validator_sequential_checks :
    (∀ ts : List Txn, validate_transactions ts = (validSpec ts, errSpecFrom 1 ts))
    ∧ validate_transactions v12 =
        (List.replicate 10 vOk,
         ["Row 3: Missing description", "Row 7: Missing description"]) :=
  ⟨fun ts => validateGo_spec ts 1, rfl⟩

/-- Claim C8: parse_date tries its explicit formats in fixed priority order
    with the US numeric slash format before the EU one, so each
    supported-format literal yields its exact calendar date and the
    ambiguous literal 03/04/2024 resolves to March 4 (the EU-only literal
    31/01/2024 still parses, via the later EU pattern); the results on
    explicit-format literals are independent of the generic fallback
    parser, which is consulted only when no explicit pattern matches, and
    total failure yields none rather than an exception. -/
theorem parse_date_us_priority :
    (∀ fb, parse_date fb (vStr "03/04/2024") = some ⟨2024, 3, 4⟩)
    ∧ (∀ fb, parse_date fb (vStr "2024-03-04") = some ⟨2024, 3, 4⟩)
    ∧ (∀ fb, parse_date fb (vStr "03/04/24") = some ⟨2024, 3, 4⟩)
    ∧ (∀ fb, parse_date fb (vStr "31/01/2024") = some ⟨2024, 1, 31⟩)
    ∧ (∀ fb, parse_date fb (vStr "03-04-2024") = some ⟨2024, 3, 4⟩)
    ∧ (∀ fb, parse_date fb (vStr "2024/03/04") = some ⟨2024, 3, 4⟩)
    ∧ (∀ fb, parse_date fb (vStr "March 4, 2024") = some ⟨2024, 3, 4⟩)
    ∧ (∀ fb, parse_date fb (vStr "Mar 4, 2024") = some ⟨2024, 3, 4⟩)
    ∧ (∀ fb, parse_date fb (vStr "4 March 2024") = some ⟨2024, 3, 4⟩)
    ∧ (∀ fb, parse_date fb (vStr "4 Mar 2024") = some ⟨2024, 3, 4⟩)
    ∧ parse_date (fun s => if s = "odd input" then some ⟨2020, 1, 1⟩ else none)
        (vStr "odd input") = some ⟨2020, 1, 1⟩
    ∧ parse_date fbNone (vStr "odd input") = none :=
  ⟨fun _ => rfl, fun _ => rfl, fun _ => rfl, fun _ => rfl, fun _ => rfl, fun _ => rfl,
   fun _ => rfl, fun _ => rfl, fun _ => rfl, fun _ => rfl, rfl, rfl⟩

/-- Claim C9: parse_amount strips currency symbols, thousands separators
    and whitespace, converts a parenthesized value to a leading-minus
    negative before numeric parsing, and returns none rather than raising
    on a non-numeric residue: the parenthesized dollar amount gives
    -1234.56, the plain dollar amount gives 42, the alphabetic string gives
    none; surrounding whitespace is tolerated and bare parentheses negate. -/
theorem parse_amount_normalization :
    parse_amount (vStr "($1,234.56)") = some (mkPyQ (-123456) 100)
    ∧ parse_amount (vStr "$42.00") = some (PyQ.ofInt 42)
    ∧ parse_amount (vStr "abc") = none
    ∧ parse_amount (vStr " $1,234.56 ") = some (mkPyQ 123456 100)
    ∧ parse_amount (vStr "(12)") = some (PyQ.ofInt (-12)) :=
  ⟨rfl, rfl, rfl, rfl, rfl⟩

/-- Claim C10: in PDF text extraction every pattern is matched against the
    entire text independently, so a line matched by more than one pattern
    (here the first and third pattern, which are identical) contributes one
    record per matching pattern, giving the same record twice; a match
    whose date fails normalization is dropped without error, and a match
    whose amount token does not survive normalization (a residue of commas)
    is likewise dropped without error. -/
theorem pdf_patterns_independent_matching :
    (∀ fb, parse_transactions_from_pdf fb "01/02/2024 Coffee Shop 5.00" =
      [⟨pstr "Coffee Shop", pnum (PyQ.ofInt 5), pdate ⟨2024, 1, 2⟩, none, "Bank Account"⟩,
       ⟨pstr "Coffee Shop", pnum (PyQ.ofInt 5), pdate ⟨2024, 1, 2⟩, none, "Bank Account"⟩])
    ∧ parse_transactions_from_pdf fbNone "13/13/2024 Things 5.00" = []
    ∧ (∀ fb, parse_transactions_from_pdf fb "01/02/2024 Coffee ,," = []) :=
  ⟨fun _ => rfl, rfl, fun _ => rfl⟩

end AFA
